import Mathlib

/-!
Shallow embedding of the EnduranceRPG gamification engine.

The repository contains two generations of the engine:

* `GameV1` — the variant with the quadratic leveling formula
  (`A·L² + B·L`, A=100, B=300), the full activity-type classification
  (running / walking / cycling / ski / swim / workout / yoga), and no
  daily quests or daily XP cap.
* `GameV2` — the variant with the power-law leveling formula
  (`floor(500·L^1.5)`), a simpler classification (running / cycling,
  everything else defaulting to the running rate), daily quests and a
  daily XP cap.

Numbers that are JavaScript `number`s are embedded as exact rationals
(`ℚ`) or integers (`ℤ`); `Math.floor` is `Int.floor`.  IEEE-754
rounding is not modelled: all arithmetic is exact.
`floor(500 · L^1.5)` is embedded exactly as `Nat.sqrt (250000 · L³)`
(for an integer `L ≥ 2`, `500·L^1.5 = √(250000·L³)`, and the floor of
a square root of a natural number is the natural square root).

A JavaScript `Date` is embedded as the record of the accessors the
engine uses: `getTime()` (milliseconds), `getDate()/getMonth()/getFullYear()`
(the calendar day used for "same day" tests) and `getDay()` (weekday,
0 = Sunday).  Firestore `Timestamp`s wrap the same data.

The store-backed orchestrator functions (`calculateXP`,
`updateGameProfile`) read one profile document and write one; they are
embedded as pure functions that take the profile (`Option GameProfile`,
`none` = no profile stored) and the wall-clock date (`new Date()` /
`Timestamp.now()` at processing time) as explicit arguments.
-/

/-- Embedding of a JavaScript `Date` by the accessors the engine uses:
`ms` is `getTime()`, `day`/`month`/`year` are `getDate()`/`getMonth()`/
`getFullYear()`, `weekday` is `getDay()` (0 = Sunday .. 6 = Saturday). -/
structure JSDate where
  ms : ℤ
  day : ℤ
  month : ℤ
  year : ℤ
  weekday : ℤ
deriving DecidableEq, Repr

/-- The "same calendar day" test the source repeats at every reset
boundary: `getDate`, `getMonth` and `getFullYear` all agree. -/
def sameCalendarDay (a b : JSDate) : Bool :=
  a.day == b.day && a.month == b.month && a.year == b.year

/-- The fields of a Strava activity the engine reads: `type`,
`distance` (meters), `moving_time` (seconds), `total_elevation_gain`
(meters) and `start_date`. -/
structure StravaActivity where
  type : String
  distance : ℚ
  moving_time : ℚ
  total_elevation_gain : ℚ
  start_date : JSDate
deriving DecidableEq, Repr

/-- Tier enumeration `CharacterTier` from the shared types. -/
inductive CharacterTier where
  | Novice
  | Apprentice
  | Expert
  | Master
deriving DecidableEq, Repr

/-- Return type of `calculateLevel`. -/
structure CalculatedLevel where
  level : ℕ
  currentLevelXP : ℤ
  nextLevelXP : ℤ
deriving DecidableEq, Repr

/-- Return type of `updateStreak`. -/
structure StreakCalculationResult where
  streakCount : ℕ
  streakActive : Bool
deriving DecidableEq, Repr

/-- Embeds `GAME_CONFIG.STREAK_THRESHOLD` (3 in both config variants). -/
def STREAK_THRESHOLD : ℕ := 3

/-- Embeds `GAME_CONFIG.STREAK_BONUS_MULTIPLIER` (1.2 in both config variants,
an exact 6/5 here). -/
def STREAK_BONUS_MULTIPLIER : ℚ := 6 / 5

/-- Embeds `GAME_CONFIG.MAX_SPEED_KMH` (25 in both config variants). -/
def MAX_SPEED_KMH : ℚ := 25

/-- Embeds `GAME_CONFIG.RUNNING_TYPES` (identical in both config variants). -/
def RUNNING_TYPES : List String := ["Run", "VirtualRun", "TrailRun"]

/-- Embeds `GAME_CONFIG.CYCLING_TYPES` (identical in both config variants). -/
def CYCLING_TYPES : List String := ["Ride", "VirtualRide", "EBikeRide", "MountainBikeRide"]

/-- The day difference both `updateStreak` variants compute:
`Math.floor((currentActivityDate.getTime() - lastDate.getTime()) / (1000*60*60*24))`. -/
def daysDiff (lastDate currentActivityDate : JSDate) : ℤ :=
  ⌊((currentActivityDate.ms - lastDate.ms : ℤ) : ℚ) / (1000 * 60 * 60 * 24)⌋

/-- Embeds `updateStreak`, textually identical in both engine variants
(same threshold, same day arithmetic). -/
def updateStreak (lastActivityDate : Option JSDate) (currentStreakCount : ℕ)
    (currentActivityDate : JSDate) : StreakCalculationResult :=
  match lastActivityDate with
  | none => { streakCount := 1, streakActive := false }
  | some lastDate =>
    let d := daysDiff lastDate currentActivityDate
    if d = 0 then
      { streakCount := currentStreakCount
        streakActive := decide (currentStreakCount ≥ STREAK_THRESHOLD) }
    else if d = 1 then
      { streakCount := currentStreakCount + 1
        streakActive := decide (currentStreakCount + 1 ≥ STREAK_THRESHOLD) }
    else
      { streakCount := 1, streakActive := false }

/-- Embeds `isSuspiciousSpeed`, textually identical in both engine variants. -/
def isSuspiciousSpeed (activity : StravaActivity) : Bool :=
  if activity.distance = 0 ∨ activity.moving_time = 0 then
    false
  else
    let speedKmH := activity.distance / 1000 / (activity.moving_time / 3600)
    if activity.type ∈ RUNNING_TYPES then
      decide (speedKmH > MAX_SPEED_KMH)
    else
      false

/-- The `while (true)` scan of `calculateLevel`, made total with a fuel
argument; `calculateLevelWith` supplies `totalXP.toNat + 1` units of
fuel, which `levelLoop_spec` proves is never exhausted.  The state is
`(level, xpForCurrentLevel)` exactly as in the source. -/
def levelLoop (xpReq : ℤ → ℤ) (totalXP : ℤ) : ℕ → ℕ → ℤ → ℕ × ℤ
  | 0, level, xpForCurrentLevel => (level, xpForCurrentLevel)
  | fuel + 1, level, xpForCurrentLevel =>
    if totalXP < xpReq ((level : ℤ) + 1) then
      (level, xpForCurrentLevel)
    else
      levelLoop xpReq totalXP fuel (level + 1) (xpReq ((level : ℤ) + 1))

/-- Shared body of `calculateLevel`, parametrized by the choice
of `getXPRequiredForLevel`. -/
def calculateLevelWith (xpReq : ℤ → ℤ) (totalXP : ℤ) : CalculatedLevel :=
  let r := levelLoop xpReq totalXP (totalXP.toNat + 1) 1 0
  { level := r.1
    currentLevelXP := totalXP - r.2
    nextLevelXP := xpReq ((r.1 : ℤ) + 1) - r.2 }

namespace GameV1

/-- Embeds `GAME_CONFIG.LEVELING.A` of the quadratic variant. -/
def LEVELING_A : ℤ := 100

/-- Embeds `GAME_CONFIG.LEVELING.B` of the quadratic variant. -/
def LEVELING_B : ℤ := 300

/-- Embeds `getXPRequiredForLevel` of the quadratic variant:
`Math.floor(A * level² + B * level)` — the floor is the identity on the
integer inputs the engine uses. -/
def getXPRequiredForLevel (level : ℤ) : ℤ :=
  if level ≤ 1 then 0 else LEVELING_A * level ^ 2 + LEVELING_B * level

/-- Embeds `calculateLevel` of the quadratic variant. -/
def calculateLevel (totalXP : ℤ) : CalculatedLevel :=
  calculateLevelWith getXPRequiredForLevel totalXP

end GameV1

namespace GameV2

/-- Embeds `GAME_CONFIG.LEVEL_BASE_XP` of the power-law variant. -/
def LEVEL_BASE_XP : ℕ := 500

/-- Embeds `getXPRequiredForLevel` of the power-law variant:
`Math.floor(500 * level^1.5)`, embedded exactly as
`Nat.sqrt (500² · level³)` (see the header comment). -/
def getXPRequiredForLevel (level : ℤ) : ℤ :=
  if level ≤ 1 then 0
  else (Nat.sqrt (LEVEL_BASE_XP ^ 2 * level.toNat ^ 3) : ℤ)

/-- Embeds `calculateLevel` of the power-law variant. -/
def calculateLevel (totalXP : ℤ) : CalculatedLevel :=
  calculateLevelWith getXPRequiredForLevel totalXP

end GameV2

/-- Evaluation helper for `Nat.sqrt` (the kernel cannot reduce it). -/
lemma sqrt_eval (n k : ℕ) (h1 : k * k ≤ n) (h2 : n < (k + 1) * (k + 1)) :
    Nat.sqrt n = k := by
  have ha : k ≤ Nat.sqrt n := Nat.le_sqrt.mpr h1
  have hb : ¬ (k + 1 ≤ Nat.sqrt n) := by
    intro hcon
    nlinarith [Nat.sqrt_le n, hcon]
  omega

/-- The running pair `(level, xpForCurrentLevel)` of the scan keeps the
invariant `xpForCurrentLevel = xpReq level`, whether or not the fuel
runs out. -/
lemma levelLoop_snd_eq (xpReq : ℤ → ℤ) (totalXP : ℤ) :
    ∀ (fuel level : ℕ) (xpCur : ℤ), xpCur = xpReq (level : ℤ) →
      (levelLoop xpReq totalXP fuel level xpCur).2
        = xpReq ((levelLoop xpReq totalXP fuel level xpCur).1 : ℤ) := by
  intro fuel
  induction fuel with
  | zero =>
    intro level xpCur h
    simpa [levelLoop] using h
  | succ n ih =>
    intro level xpCur h
    by_cases hc : totalXP < xpReq ((level : ℤ) + 1)
    · simpa [levelLoop, hc] using h
    · simp only [levelLoop, if_neg hc]
      exact ih (level + 1) (xpReq ((level : ℤ) + 1)) (by norm_cast)

/-- Fuel-sufficiency and the bracketing property of the scan: with the
invariants of `calculateLevelWith`'s call in force, the scan stops at a
`level ≥ 1` whose threshold is at most `totalXP` while the next
threshold exceeds it. -/
lemma levelLoop_spec (xpReq : ℤ → ℤ) (totalXP : ℤ)
    (hgrow : ∀ L : ℕ, 1 ≤ L → (L : ℤ) ≤ xpReq ((L : ℤ) + 1)) :
    ∀ (fuel level : ℕ) (xpCur : ℤ),
      1 ≤ level → xpCur = xpReq (level : ℤ) → xpCur ≤ totalXP →
      totalXP.toNat + 2 ≤ fuel + level →
      1 ≤ (levelLoop xpReq totalXP fuel level xpCur).1 ∧
      (levelLoop xpReq totalXP fuel level xpCur).2 ≤ totalXP ∧
      totalXP < xpReq (((levelLoop xpReq totalXP fuel level xpCur).1 : ℤ) + 1) := by
  intro fuel
  induction fuel with
  | zero =>
    intro level xpCur hlev hcur hle hfuel
    exfalso
    have hl2 : 2 ≤ level := by omega
    have hg := hgrow (level - 1) (by omega)
    have hcast : ((level - 1 : ℕ) : ℤ) + 1 = (level : ℤ) := by
      push_cast [Nat.cast_sub (by omega : 1 ≤ level)]
      ring
    rw [hcast] at hg
    have hchain : ((level - 1 : ℕ) : ℤ) ≤ totalXP := le_trans hg (hcur ▸ hle)
    omega
  | succ n ih =>
    intro level xpCur hlev hcur hle hfuel
    by_cases hc : totalXP < xpReq ((level : ℤ) + 1)
    · simp only [levelLoop, if_pos hc]
      exact ⟨hlev, hle, hc⟩
    · simp only [levelLoop, if_neg hc]
      exact ih (level + 1) (xpReq ((level : ℤ) + 1)) (by omega) (by norm_cast)
        (not_lt.mp hc) (by omega)

/-- The derivation invariant of `calculateLevel`, with no hypothesis on
`totalXP`: `currentLevelXP` plus the XP consumed by all prior levels is
`totalXP`. -/
lemma calculateLevelWith_consumed (xpReq : ℤ → ℤ) (hone : xpReq 1 = 0) (totalXP : ℤ) :
    (calculateLevelWith xpReq totalXP).currentLevelXP
      + xpReq ((calculateLevelWith xpReq totalXP).level : ℤ) = totalXP := by
  have hsnd := levelLoop_snd_eq xpReq totalXP (totalXP.toNat + 1) 1 0
    (by rw [Nat.cast_one, hone])
  simp only [calculateLevelWith]
  rw [← hsnd]
  ring

/-- Full specification of `calculateLevel` for non-negative `totalXP`:
the returned level is at least 1, brackets `totalXP` between its
threshold and the next one, and `currentLevelXP`/`nextLevelXP` are the
distances to those thresholds. -/
lemma calculateLevelWith_spec (xpReq : ℤ → ℤ)
    (hone : xpReq 1 = 0)
    (hgrow : ∀ L : ℕ, 1 ≤ L → (L : ℤ) ≤ xpReq ((L : ℤ) + 1))
    (totalXP : ℤ) (h0 : 0 ≤ totalXP) :
    1 ≤ (calculateLevelWith xpReq totalXP).level ∧
    xpReq ((calculateLevelWith xpReq totalXP).level : ℤ) ≤ totalXP ∧
    totalXP < xpReq (((calculateLevelWith xpReq totalXP).level : ℤ) + 1) ∧
    (calculateLevelWith xpReq totalXP).currentLevelXP
      = totalXP - xpReq ((calculateLevelWith xpReq totalXP).level : ℤ) ∧
    (calculateLevelWith xpReq totalXP).nextLevelXP
      = xpReq (((calculateLevelWith xpReq totalXP).level : ℤ) + 1)
        - xpReq ((calculateLevelWith xpReq totalXP).level : ℤ) := by
  have hsnd := levelLoop_snd_eq xpReq totalXP (totalXP.toNat + 1) 1 0
    (by rw [Nat.cast_one, hone])
  have hspec := levelLoop_spec xpReq totalXP hgrow (totalXP.toNat + 1) 1 0
    le_rfl (by rw [Nat.cast_one, hone]) h0 (by omega)
  simp only [calculateLevelWith]
  refine ⟨hspec.1, ?_, hspec.2.2, ?_, ?_⟩
  · rw [← hsnd]; exact hspec.2.1
  · rw [hsnd]
  · rw [hsnd]

/-- Non-strict monotonicity (on levels ≥ 1) from strict monotonicity. -/
lemma xpReq_mono_of_strict (xpReq : ℤ → ℤ)
    (hs : ∀ L : ℤ, 1 ≤ L → xpReq L < xpReq (L + 1)) :
    ∀ (L M : ℕ), 1 ≤ L → L ≤ M → xpReq (L : ℤ) ≤ xpReq (M : ℤ) := by
  intro L M hL hLM
  induction M with
  | zero => omega
  | succ m ih =>
    rcases Nat.lt_or_ge L (m + 1) with hlt | hge
    · have h1 : xpReq (L : ℤ) ≤ xpReq (m : ℤ) := ih (by omega)
      have h2 : xpReq (m : ℤ) < xpReq ((m : ℤ) + 1) := hs (m : ℤ) (by exact_mod_cast by omega : (1 : ℤ) ≤ (m : ℕ))
      have : ((m + 1 : ℕ) : ℤ) = (m : ℤ) + 1 := by push_cast; ring
      rw [this]
      exact le_of_lt (lt_of_le_of_lt h1 h2)
    · have : L = m + 1 := by omega
      rw [this]

/-- The quadratic `getXPRequiredForLevel` is zero at levels ≤ 1. -/
lemma GameV1_xpReq_zero (L : ℤ) (h : L ≤ 1) : GameV1.getXPRequiredForLevel L = 0 := by
  simp [GameV1.getXPRequiredForLevel, h]

/-- The power-law `getXPRequiredForLevel` is zero at levels ≤ 1. -/
lemma GameV2_xpReq_zero (L : ℤ) (h : L ≤ 1) : GameV2.getXPRequiredForLevel L = 0 := by
  simp [GameV2.getXPRequiredForLevel, h]

/-- The quadratic `getXPRequiredForLevel` is strictly increasing on
levels ≥ 1. -/
lemma GameV1_xpReq_strictMono (L : ℤ) (h : 1 ≤ L) :
    GameV1.getXPRequiredForLevel L < GameV1.getXPRequiredForLevel (L + 1) := by
  rcases le_or_lt L 1 with h1 | h1
  · have hL : L = 1 := le_antisymm h1 h
    subst hL
    norm_num [GameV1.getXPRequiredForLevel, GameV1.LEVELING_A, GameV1.LEVELING_B]
  · have h2 : ¬ (L ≤ 1) := by omega
    have h3 : ¬ (L + 1 ≤ 1) := by omega
    simp only [GameV1.getXPRequiredForLevel, if_neg h2, if_neg h3,
      GameV1.LEVELING_A, GameV1.LEVELING_B]
    nlinarith

/-- Computes `Nat.sqrt (250000 · 2³) = 1414`, i.e. `floor(500 · 2^1.5)`. -/
lemma sqrt_2000000 : Nat.sqrt 2000000 = 1414 :=
  sqrt_eval 2000000 1414 (by norm_num) (by norm_num)

/-- The power-law `getXPRequiredForLevel` is strictly increasing on
levels ≥ 1. -/
lemma GameV2_xpReq_strictMono (L : ℤ) (h : 1 ≤ L) :
    GameV2.getXPRequiredForLevel L < GameV2.getXPRequiredForLevel (L + 1) := by
  rcases le_or_lt L 1 with h1 | h1
  · have hL : L = 1 := le_antisymm h1 h
    subst hL
    have e2 : GameV2.getXPRequiredForLevel 2 = 1414 := by
      simp only [GameV2.getXPRequiredForLevel, GameV2.LEVEL_BASE_XP]
      rw [if_neg (by norm_num), show (500 : ℕ) ^ 2 * ((2 : ℤ).toNat) ^ 3 = 2000000 by decide,
        sqrt_2000000]
      norm_num
    rw [show (1 : ℤ) + 1 = 2 by norm_num, e2, GameV2_xpReq_zero 1 le_rfl]
    norm_num
  · have h2 : ¬ (L ≤ 1) := by omega
    have h3 : ¬ (L + 1 ≤ 1) := by omega
    simp only [GameV2.getXPRequiredForLevel, if_neg h2, if_neg h3, GameV2.LEVEL_BASE_XP]
    have hn : (L + 1).toNat = L.toNat + 1 := by omega
    rw [hn]
    have hnat : Nat.sqrt (500 ^ 2 * L.toNat ^ 3)
        < Nat.sqrt (500 ^ 2 * (L.toNat + 1) ^ 3) := by
      set n := L.toNat with hdefn
      have hn1 : 1 ≤ n := by omega
      set k := Nat.sqrt (500 ^ 2 * n ^ 3) with hdefk
      have hk : k * k ≤ 500 ^ 2 * n ^ 3 := by
        have := Nat.sqrt_le (500 ^ 2 * n ^ 3)
        simpa [← hdefk] using this
      have hkle : k ≤ 500 * n ^ 2 := by
        by_contra hcon
        push_neg at hcon
        nlinarith
      have hstep : (k + 1) * (k + 1) ≤ 500 ^ 2 * (n + 1) ^ 3 := by nlinarith
      have : k + 1 ≤ Nat.sqrt (500 ^ 2 * (n + 1) ^ 3) := Nat.le_sqrt.mpr hstep
      omega
    exact_mod_cast hnat

/-- Growth bound used for fuel sufficiency, quadratic variant. -/
lemma GameV1_xpReq_grow (L : ℕ) (h : 1 ≤ L) :
    (L : ℤ) ≤ GameV1.getXPRequiredForLevel ((L : ℤ) + 1) := by
  have h2 : ¬ ((L : ℤ) + 1 ≤ 1) := by
    have : (1 : ℤ) ≤ (L : ℤ) := by exact_mod_cast h
    omega
  simp only [GameV1.getXPRequiredForLevel, if_neg h2,
    GameV1.LEVELING_A, GameV1.LEVELING_B]
  have : (1 : ℤ) ≤ (L : ℤ) := by exact_mod_cast h
  nlinarith

/-- Growth bound used for fuel sufficiency, power-law variant. -/
lemma GameV2_xpReq_grow (L : ℕ) (h : 1 ≤ L) :
    (L : ℤ) ≤ GameV2.getXPRequiredForLevel ((L : ℤ) + 1) := by
  have hL1 : (1 : ℤ) ≤ (L : ℤ) := by exact_mod_cast h
  have h2 : ¬ ((L : ℤ) + 1 ≤ 1) := by omega
  simp only [GameV2.getXPRequiredForLevel, if_neg h2, GameV2.LEVEL_BASE_XP]
  have hn : ((L : ℤ) + 1).toNat = L + 1 := by omega
  rw [hn]
  have hnat : L ≤ Nat.sqrt (500 ^ 2 * (L + 1) ^ 3) := by
    apply Nat.le_sqrt.mpr
    nlinarith
  exact_mod_cast hnat

/-- A level bracketing a given `totalXP` between consecutive thresholds
is unique among levels ≥ 1 when the threshold map is strictly
increasing there. -/
lemma bracket_unique (xpReq : ℤ → ℤ)
    (hs : ∀ L : ℤ, 1 ≤ L → xpReq L < xpReq (L + 1))
    (totalXP : ℤ) (L M : ℕ) (hL : 1 ≤ L) (hM : 1 ≤ M)
    (h1 : xpReq (L : ℤ) ≤ totalXP) (h2 : totalXP < xpReq ((L : ℤ) + 1))
    (h3 : xpReq (M : ℤ) ≤ totalXP) (h4 : totalXP < xpReq ((M : ℤ) + 1)) :
    L = M := by
  rcases lt_trichotomy L M with hlt | heq | hgt
  · exfalso
    have hmono := xpReq_mono_of_strict xpReq hs (L + 1) M (by omega) (by omega)
    have hcast : ((L + 1 : ℕ) : ℤ) = (L : ℤ) + 1 := by push_cast; ring
    rw [hcast] at hmono
    linarith
  · exact heq
  · exfalso
    have hmono := xpReq_mono_of_strict xpReq hs (M + 1) L (by omega) (by omega)
    have hcast : ((M + 1 : ℕ) : ℤ) = (M : ℤ) + 1 := by push_cast; ring
    rw [hcast] at hmono
    linarith

namespace GameV1

/-- Embeds `GAME_CONFIG.XP_PER_M_ELEVATION` of the quadratic variant. -/
def XP_PER_M_ELEVATION : ℚ := 2

/-- Embeds `GAME_CONFIG.XP_PER_KM_RUN` of the quadratic variant. -/
def XP_PER_KM_RUN : ℚ := 100

/-- Embeds `GAME_CONFIG.XP_PER_KM_WALK`. -/
def XP_PER_KM_WALK : ℚ := 50

/-- Embeds `GAME_CONFIG.XP_PER_KM_XC_SKI`. -/
def XP_PER_KM_XC_SKI : ℚ := 50

/-- Embeds `GAME_CONFIG.XP_PER_KM_SKI`. -/
def XP_PER_KM_SKI : ℚ := 10

/-- Embeds `GAME_CONFIG.XP_PER_KM_RIDE` of the quadratic variant. -/
def XP_PER_KM_RIDE : ℚ := 25

/-- Embeds `GAME_CONFIG.XP_PER_KM_SWIM`. -/
def XP_PER_KM_SWIM : ℚ := 500

/-- Embeds `GAME_CONFIG.XP_PER_MIN_WORKOUT`. -/
def XP_PER_MIN_WORKOUT : ℚ := 10

/-- Embeds `GAME_CONFIG.XP_PER_MIN_YOGA`. -/
def XP_PER_MIN_YOGA : ℚ := 5

/-- Embeds `GAME_CONFIG.WALKING_TYPES`. -/
def WALKING_TYPES : List String := ["Walk", "Hike"]

/-- Embeds `GAME_CONFIG.XC_SKI_TYPES`. -/
def XC_SKI_TYPES : List String := ["NordicSki", "BackcountrySki"]

/-- Embeds `GAME_CONFIG.SKI_TYPES`. -/
def SKI_TYPES : List String := ["AlpineSki", "Snowboard"]

/-- Embeds `GAME_CONFIG.WORKOUT_TYPES`. -/
def WORKOUT_TYPES : List String := ["Workout", "WeightTraining", "Crossfit"]

/-- Embeds `GAME_CONFIG.SWIM_TYPES`. -/
def SWIM_TYPES : List String := ["Swim"]

/-- Embeds `GAME_CONFIG.YOGA_TYPES`. -/
def YOGA_TYPES : List String := ["Yoga", "Elliptical", "StairStepper", "RockClimbing"]

/-- Embeds `getCharacterTier` of the quadratic variant (50/25/10 breakpoints). -/
def getCharacterTier (level : ℕ) : CharacterTier :=
  if level ≥ 50 then .Master
  else if level ≥ 25 then .Expert
  else if level ≥ 10 then .Apprentice
  else .Novice

/-- Embeds `calculateBaseXP` of the quadratic variant: distance-based rates by
classification with a 0-rate fallthrough, then time-based rates when no
distance XP accrued, then the per-meter elevation bonus, floored.  The
mutable `activityXP` of the source is threaded as
`activityXP1`/`activityXP2`. -/
def calculateBaseXP (activity : StravaActivity) : ℤ :=
  let activityXP1 : ℚ :=
    if activity.distance > 0 then
      let distanceKm := activity.distance / 1000
      let xpPerKm : ℚ :=
        if activity.type ∈ RUNNING_TYPES then XP_PER_KM_RUN
        else if activity.type ∈ WALKING_TYPES then XP_PER_KM_WALK
        else if activity.type ∈ XC_SKI_TYPES then XP_PER_KM_XC_SKI
        else if activity.type ∈ SKI_TYPES then XP_PER_KM_SKI
        else if activity.type ∈ CYCLING_TYPES then XP_PER_KM_RIDE
        else if activity.type ∈ SWIM_TYPES then XP_PER_KM_SWIM
        else 0
      if xpPerKm > 0 then distanceKm * xpPerKm else 0
    else 0
  let activityXP2 : ℚ :=
    if activityXP1 = 0 ∧ activity.moving_time > 0 then
      if activity.type ∈ WORKOUT_TYPES then
        activity.moving_time / 60 * XP_PER_MIN_WORKOUT
      else if activity.type ∈ YOGA_TYPES then
        activity.moving_time / 60 * XP_PER_MIN_YOGA
      else activityXP1
    else activityXP1
  ⌊activityXP2 + activity.total_elevation_gain * XP_PER_M_ELEVATION⌋

/-- The game profile document of the quadratic variant. -/
structure GameProfile where
  totalXP : ℤ
  level : ℕ
  currentLevelXP : ℤ
  nextLevelXP : ℤ
  streakCount : ℕ
  streakActive : Bool
  lastActivityDate : Option JSDate
  tier : CharacterTier
deriving DecidableEq, Repr

/-- Embeds `XPCalculationResult` of the quadratic variant. -/
structure XPCalculationResult where
  baseXP : ℤ
  streakBonus : ℤ
  totalXP : ℤ
deriving DecidableEq, Repr

/-- Embeds `calculateXP` of the quadratic variant, with the profile read made
an explicit argument (`none` = no game profile stored). -/
def calculateXP (gameProfile : Option GameProfile) (activity : StravaActivity) :
    XPCalculationResult :=
  if isSuspiciousSpeed activity then
    { baseXP := 0, streakBonus := 0, totalXP := 0 }
  else
    let baseXP := calculateBaseXP activity
    let streakBonus : ℤ :=
      if (gameProfile.map (fun g => g.streakActive)).getD false then
        ⌊(baseXP : ℚ) * (STREAK_BONUS_MULTIPLIER - 1)⌋
      else 0
    { baseXP := baseXP, streakBonus := streakBonus, totalXP := baseXP + streakBonus }

/-- Embeds `updateGameProfile` of the quadratic variant, as the pure snapshot
transformation it performs on the user's stored profile. -/
def updateGameProfile (currentGame : Option GameProfile) (activity : StravaActivity)
    (xpResult : XPCalculationResult) : GameProfile :=
  let newTotalXP := (currentGame.map (fun g => g.totalXP)).getD 0 + xpResult.totalXP
  let lvl := calculateLevel newTotalXP
  let activityDate := activity.start_date
  let s := updateStreak (currentGame.bind (fun g => g.lastActivityDate))
    ((currentGame.map (fun g => g.streakCount)).getD 0) activityDate
  { totalXP := newTotalXP
    level := lvl.level
    currentLevelXP := lvl.currentLevelXP
    nextLevelXP := lvl.nextLevelXP
    streakCount := s.streakCount
    streakActive := s.streakActive
    lastActivityDate := some activityDate
    tier := getCharacterTier lvl.level }

/-- The profile written for brand-new users by the quadratic variant. -/
def initialGame : GameProfile :=
  { totalXP := 0
    level := 1
    currentLevelXP := 0
    nextLevelXP := getXPRequiredForLevel 2
    streakCount := 0
    streakActive := false
    lastActivityDate := none
    tier := .Novice }

end GameV1

namespace GameV2

/-- Embeds `GAME_CONFIG.XP_PER_KM_RUN` of the power-law variant. -/
def XP_PER_KM_RUN : ℚ := 10

/-- Embeds `GAME_CONFIG.XP_PER_KM_RIDE` of the power-law variant. -/
def XP_PER_KM_RIDE : ℚ := 3

/-- Embeds `GAME_CONFIG.XP_PER_10M_ELEVATION` of the power-law variant. -/
def XP_PER_10M_ELEVATION : ℚ := 1

/-- Embeds `GAME_CONFIG.DAILY_XP_CAP` of the power-law variant. -/
def DAILY_XP_CAP : ℤ := 500

/-- Embeds `getCharacterTier` of the power-law variant (20/10/5 breakpoints). -/
def getCharacterTier (level : ℕ) : CharacterTier :=
  if level ≥ 20 then .Master
  else if level ≥ 10 then .Expert
  else if level ≥ 5 then .Apprentice
  else .Novice

/-- Embeds `calculateBaseXP` of the power-law variant: running or cycling per-km
rate, every other type defaulting to the running rate, plus the per-10m
elevation bonus, floored. -/
def calculateBaseXP (activity : StravaActivity) : ℤ :=
  let distanceKm := activity.distance / 1000
  let xpPerKm : ℚ :=
    if activity.type ∈ RUNNING_TYPES then XP_PER_KM_RUN
    else if activity.type ∈ CYCLING_TYPES then XP_PER_KM_RIDE
    else XP_PER_KM_RUN
  let distanceXP := distanceKm * xpPerKm
  let elevationXP := activity.total_elevation_gain / 10 * XP_PER_10M_ELEVATION
  ⌊distanceXP + elevationXP⌋

/-- A quest of the static catalog.  The two requirement fields are
`Option`s mirroring the optional properties of the source; the catalog
never sets a requirement to 0, so JavaScript truthiness on a present
field and `Option.isSome` agree. -/
structure DailyQuest where
  id : String
  name : String
  description : String
  requirement_distance : Option ℚ
  requirement_elevation : Option ℚ
  reward : ℤ
  activeDays : List ℤ
deriving DecidableEq, Repr

/-- The static `DAILY_QUESTS` catalog. -/
def DAILY_QUESTS : List DailyQuest :=
  [ { id := "DISTANCE_RUNNER"
      name := "Distance Runner"
      description := "Log at least 5km"
      requirement_distance := some 5000
      requirement_elevation := none
      reward := 50
      activeDays := [1, 3, 5] }
  , { id := "HILL_CLIMBER"
      name := "Hill Climber"
      description := "Gain 50m elevation"
      requirement_distance := none
      requirement_elevation := some 50
      reward := 50
      activeDays := [2, 4] }
  , { id := "WEEKEND_WARRIOR"
      name := "Weekend Warrior"
      description := "Log a 10km+ activity"
      requirement_distance := some 10000
      requirement_elevation := none
      reward := 100
      activeDays := [0, 6] } ]

/-- Embeds `getActiveDailyQuests`: the catalog filtered to the quests active on
the date's weekday (`date.getDay()`). -/
def getActiveDailyQuests (date : JSDate) : List DailyQuest :=
  DAILY_QUESTS.filter (fun quest => date.weekday ∈ quest.activeDays)

/-- The requirement check of `checkDailyQuests`: every requirement field
present must be met (AND semantics). -/
def questMet (activity : StravaActivity) (quest : DailyQuest) : Bool :=
  (match quest.requirement_distance with
    | none => true
    | some d => decide (activity.distance ≥ d)) &&
  (match quest.requirement_elevation with
    | none => true
    | some e => decide (activity.total_elevation_gain ≥ e))

/-- One iteration of the `checkDailyQuests` loop: skip a quest already
in `completedQuestsToday`, otherwise credit its id and reward when the
requirements are met. -/
def questStep (activity : StravaActivity) (completedQuestsToday : List String)
    (acc : List String × ℤ) (quest : DailyQuest) : List String × ℤ :=
  if completedQuestsToday.contains quest.id then acc
  else if questMet activity quest then (acc.1 ++ [quest.id], acc.2 + quest.reward)
  else acc

/-- Embeds `checkDailyQuests`: scan the active quests, skip the ones already in
`completedQuestsToday`, and accumulate the ids and rewards of the newly
completed ones.  Returns `(completedQuests, bonusXP)`. -/
def checkDailyQuests (activity : StravaActivity) (activityDate : JSDate)
    (completedQuestsToday : List String) : List String × ℤ :=
  (getActiveDailyQuests activityDate).foldl
    (questStep activity completedQuestsToday) ([], 0)

/-- The game profile document of the power-law variant. -/
structure GameProfile where
  totalXP : ℤ
  level : ℕ
  currentLevelXP : ℤ
  nextLevelXP : ℤ
  streakCount : ℕ
  streakActive : Bool
  lastActivityDate : Option JSDate
  dailyXPEarned : ℤ
  dailyXPResetDate : Option JSDate
  tier : CharacterTier
  completedQuestsToday : List String
  questResetDate : Option JSDate
deriving DecidableEq, Repr

/-- Embeds `XPCalculationResult` of the power-law variant. -/
structure XPCalculationResult where
  baseXP : ℤ
  streakBonus : ℤ
  questBonus : ℤ
  totalXP : ℤ
  completedQuests : List String
  capped : Bool
deriving DecidableEq, Repr

/-- The zero award returned for anti-cheat rejections. -/
def zeroAward : XPCalculationResult :=
  { baseXP := 0, streakBonus := 0, questBonus := 0, totalXP := 0
    completedQuests := [], capped := false }

/-- The `dailyXPEarned` figure `calculateXP` uses after its reset logic:
the stored figure if the stored reset date is from today, otherwise 0
(also 0 when no profile or no reset date is stored). -/
def effectiveDailyXP (gameProfile : Option GameProfile) (today : JSDate) : ℤ :=
  match gameProfile.bind (fun g => g.dailyXPResetDate) with
  | none => 0
  | some lastResetDate =>
    if sameCalendarDay lastResetDate today then
      (gameProfile.map (fun g => g.dailyXPEarned)).getD 0
    else 0

/-- The streak bonus `calculateXP` grants, gated by the *stored*
`streakActive` flag. -/
def streakBonusOf (gameProfile : Option GameProfile) (activity : StravaActivity) : ℤ :=
  if (gameProfile.map (fun g => g.streakActive)).getD false then
    ⌊(calculateBaseXP activity : ℚ) * (STREAK_BONUS_MULTIPLIER - 1)⌋
  else 0

/-- The quest completions and bonus `calculateXP` computes, against the
stored `completedQuestsToday` list. -/
def questPartsOf (gameProfile : Option GameProfile) (activity : StravaActivity) :
    List String × ℤ :=
  checkDailyQuests activity activity.start_date
    ((gameProfile.map (fun g => g.completedQuestsToday)).getD [])

/-- Embeds `calculateXP` of the power-law variant, with the profile read and
the wall clock (`new Date()`) made explicit arguments. -/
def calculateXP (gameProfile : Option GameProfile) (activity : StravaActivity)
    (today : JSDate) : XPCalculationResult :=
  if isSuspiciousSpeed activity then
    zeroAward
  else
    let baseXP := calculateBaseXP activity
    let isToday := sameCalendarDay activity.start_date today
    let dailyXPEarned := effectiveDailyXP gameProfile today
    let streakBonus := streakBonusOf gameProfile activity
    let qp := questPartsOf gameProfile activity
    let totalXP := baseXP + streakBonus + qp.2
    if isToday && decide (DAILY_XP_CAP < dailyXPEarned + totalXP) then
      { baseXP := baseXP, streakBonus := streakBonus, questBonus := qp.2
        totalXP := max 0 (DAILY_XP_CAP - dailyXPEarned)
        completedQuests := qp.1, capped := true }
    else
      { baseXP := baseXP, streakBonus := streakBonus, questBonus := qp.2
        totalXP := totalXP, completedQuests := qp.1, capped := false }

/-- Embeds `updateGameProfile` of the power-law variant, as the pure snapshot
transformation it performs; `today` stands for both `new Date()` and
`Timestamp.now()` at processing time. -/
def updateGameProfile (currentGame : Option GameProfile) (activity : StravaActivity)
    (xpResult : XPCalculationResult) (today : JSDate) : GameProfile :=
  let newTotalXP := (currentGame.map (fun g => g.totalXP)).getD 0 + xpResult.totalXP
  let lvl := calculateLevel newTotalXP
  let activityDate := activity.start_date
  let s := updateStreak (currentGame.bind (fun g => g.lastActivityDate))
    ((currentGame.map (fun g => g.streakCount)).getD 0) activityDate
  let isNewDay :=
    match currentGame.bind (fun g => g.questResetDate) with
    | none => true
    | some questResetDate => !(sameCalendarDay questResetDate today)
  let completedQuestsToday :=
    if isNewDay then xpResult.completedQuests
    else ((currentGame.map (fun g => g.completedQuestsToday)).getD []) ++ xpResult.completedQuests
  let isDailyReset :=
    match currentGame.bind (fun g => g.dailyXPResetDate) with
    | none => true
    | some dailyXPResetDate => !(sameCalendarDay dailyXPResetDate today)
  let dailyXPEarned :=
    if isDailyReset then xpResult.totalXP
    else ((currentGame.map (fun g => g.dailyXPEarned)).getD 0) + xpResult.totalXP
  { totalXP := newTotalXP
    level := lvl.level
    currentLevelXP := lvl.currentLevelXP
    nextLevelXP := lvl.nextLevelXP
    streakCount := s.streakCount
    streakActive := s.streakActive
    lastActivityDate := some activityDate
    dailyXPEarned := dailyXPEarned
    dailyXPResetDate := some today
    tier := getCharacterTier lvl.level
    completedQuestsToday := completedQuestsToday
    questResetDate :=
      if isNewDay then some today
      else some (((currentGame.bind (fun g => g.questResetDate))).getD today) }

/-- The profile written for brand-new users by the power-law variant. -/
def initialGame : GameProfile :=
  { totalXP := 0
    level := 1
    currentLevelXP := 0
    nextLevelXP := getXPRequiredForLevel 2
    streakCount := 0
    streakActive := false
    lastActivityDate := none
    dailyXPEarned := 0
    dailyXPResetDate := none
    tier := .Novice
    completedQuestsToday := []
    questResetDate := none }

/-- The game-logic pipeline of `processAndStoreActivity` for an activity
not yet stored: `calculateXP` followed unconditionally by
`updateGameProfile`, returning the award and the new snapshot. -/
def processActivity (currentGame : Option GameProfile) (activity : StravaActivity)
    (today : JSDate) : XPCalculationResult × GameProfile :=
  let xpResult := calculateXP currentGame activity today
  (xpResult, updateGameProfile currentGame activity xpResult today)

end GameV2

/-- A Wednesday (weekday 3), used as a concrete date in witnesses. -/
def dayWed : JSDate := { ms := 0, day := 1, month := 0, year := 2025, weekday := 3 }

/-- The next calendar day after `dayWed` (a Thursday). -/
def dayThu : JSDate := { ms := 86400000, day := 2, month := 0, year := 2025, weekday := 4 }

/-- Two calendar days after `dayWed` (a Friday). -/
def dayFri : JSDate := { ms := 2 * 86400000, day := 3, month := 0, year := 2025, weekday := 5 }

/-- A Tuesday (weekday 2), the day the Hill Climber quest is active. -/
def dayTue : JSDate := { ms := 7 * 86400000, day := 8, month := 0, year := 2025, weekday := 2 }

/-- A half marathon in 2800 s (≈27.1 km/h — above the 25 km/h cap). -/
def fastRun : StravaActivity :=
  { type := "Run", distance := 21097, moving_time := 2800
    total_elevation_gain := 0, start_date := dayFri }

/-- The same distance in 3600 s (≈21.1 km/h — below the cap). -/
def slowRun : StravaActivity :=
  { type := "Run", distance := 21097, moving_time := 3600
    total_elevation_gain := 0, start_date := dayWed }

/-- A 10 km run in one hour with no elevation gain, dated `dayTue`. -/
def run10k : StravaActivity :=
  { type := "Run", distance := 10000, moving_time := 3600
    total_elevation_gain := 0, start_date := dayTue }

/-- An activity whose type is in no classification set of either
variant. -/
def golfOuting : StravaActivity :=
  { type := "Golf", distance := 1000, moving_time := 600
    total_elevation_gain := 25, start_date := dayWed }

/-- C8: `isSuspiciousSpeed` is false whenever distance or moving time is
zero, false for every non-running type regardless of speed, and
otherwise true exactly when the type is in the running set and
`(distance/1000)/(movingTime/3600)` exceeds the configured maximum. -/
theorem c8_isSuspiciousSpeed_characterization (a : StravaActivity) :
    ((a.distance = 0 ∨ a.moving_time = 0) → isSuspiciousSpeed a = false) ∧
    (a.type ∉ RUNNING_TYPES → isSuspiciousSpeed a = false) ∧
    (isSuspiciousSpeed a = true ↔
      a.distance ≠ 0 ∧ a.moving_time ≠ 0 ∧ a.type ∈ RUNNING_TYPES ∧
        a.distance / 1000 / (a.moving_time / 3600) > MAX_SPEED_KMH) := by
  refine ⟨fun h => by simp [isSuspiciousSpeed, h], fun h => ?_, ?_⟩
  · by_cases h0 : a.distance = 0 ∨ a.moving_time = 0 <;>
      simp [isSuspiciousSpeed, h0, h]
  · by_cases h0 : a.distance = 0 ∨ a.moving_time = 0
    · rcases h0 with h | h <;> simp [isSuspiciousSpeed, h]
    · by_cases hr : a.type ∈ RUNNING_TYPES
      · push_neg at h0
        simp [isSuspiciousSpeed, h0, hr]
      · simp [isSuspiciousSpeed, h0, hr]

/-- C8 witness: the 27.1 km/h run is flagged; a ride is never flagged. -/
theorem c8_witness :
    isSuspiciousSpeed fastRun = true ∧
    isSuspiciousSpeed
      { type := "Ride", distance := 100000, moving_time := 3600
        total_elevation_gain := 0, start_date := dayWed } = false := by
  constructor
  · exact (c8_isSuspiciousSpeed_characterization fastRun).2.2.mpr
      ⟨by norm_num [fastRun], by norm_num [fastRun], by simp [fastRun, RUNNING_TYPES],
        by norm_num [fastRun, MAX_SPEED_KMH]⟩
  · exact (c8_isSuspiciousSpeed_characterization _).2.1 (by simp [RUNNING_TYPES])

/-- C6: the four cases of `updateStreak` — no prior timestamp starts a
1-day inactive streak; day-difference 0 keeps the count and activates at
the threshold; day-difference 1 increments and activates at the
threshold; a gap greater than 1 resets. -/
theorem c6_updateStreak_cases (last cur : JSDate) (count : ℕ) :
    (updateStreak none count cur = { streakCount := 1, streakActive := false }) ∧
    (daysDiff last cur = 0 →
      updateStreak (some last) count cur
        = { streakCount := count
            streakActive := decide (count ≥ STREAK_THRESHOLD) }) ∧
    (daysDiff last cur = 1 →
      updateStreak (some last) count cur
        = { streakCount := count + 1
            streakActive := decide (count + 1 ≥ STREAK_THRESHOLD) }) ∧
    (1 < daysDiff last cur →
      updateStreak (some last) count cur = { streakCount := 1, streakActive := false }) := by
  refine ⟨rfl, fun h => by simp [updateStreak, h], fun h => by simp [updateStreak, h], fun h => ?_⟩
  have h0 : daysDiff last cur ≠ 0 := by omega
  have h1 : daysDiff last cur ≠ 1 := by omega
  simp [updateStreak, h0, h1]

/-- C6 witness: a consecutive-day activity at streak count 2 reaches the
threshold 3 and activates the streak. -/
theorem c6_witness :
    daysDiff dayWed dayThu = 1 ∧
    updateStreak (some dayWed) 2 dayThu
      = { streakCount := 2 + 1, streakActive := decide (2 + 1 ≥ STREAK_THRESHOLD) } := by
  have h : daysDiff dayWed dayThu = 1 := by
    norm_num [daysDiff, dayWed, dayThu]
  exact ⟨h, (c6_updateStreak_cases dayWed dayThu 2).2.2.1 h⟩

/-- C10: a backward-dated activity (timestamp strictly earlier than the
stored one, hence a negative day-difference) takes the "streak broken"
branch and resets to a 1-day inactive streak. -/
theorem c10_updateStreak_backdated (last cur : JSDate) (count : ℕ)
    (h : cur.ms < last.ms) :
    daysDiff last cur < 0 ∧
    updateStreak (some last) count cur = { streakCount := 1, streakActive := false } := by
  have hneg : daysDiff last cur < 0 := by
    have : ((cur.ms - last.ms : ℤ) : ℚ) / (1000 * 60 * 60 * 24) < 0 := by
      apply div_neg_of_neg_of_pos
      · exact_mod_cast sub_neg.mpr h
      · norm_num
    unfold daysDiff
    exact_mod_cast Int.floor_lt.mpr (by exact_mod_cast this)
  have h0 : daysDiff last cur ≠ 0 := by omega
  have h1 : daysDiff last cur ≠ 1 := by omega
  exact ⟨hneg, by simp [updateStreak, h0, h1]⟩

/-- C10 witness: an activity dated one day before the stored last
activity resets the streak to 1/inactive. -/
theorem c10_witness :
    daysDiff dayThu dayWed < 0 ∧
    updateStreak (some dayThu) 5 dayWed = { streakCount := 1, streakActive := false } :=
  c10_updateStreak_backdated dayThu dayWed 5 (by norm_num [dayWed, dayThu])

/-- C4: both `getXPRequiredForLevel` variants return 0 at every level
≤ 1 and are strictly increasing on levels ≥ 1 with the configured
constants (quadratic A=100, B=300; power-law base=500, exponent=1.5). -/
theorem c4_xpRequired_zero_and_strictMono :
    (∀ L : ℤ, L ≤ 1 →
      GameV1.getXPRequiredForLevel L = 0 ∧ GameV2.getXPRequiredForLevel L = 0) ∧
    (∀ L : ℤ, 1 ≤ L →
      GameV1.getXPRequiredForLevel L < GameV1.getXPRequiredForLevel (L + 1) ∧
      GameV2.getXPRequiredForLevel L < GameV2.getXPRequiredForLevel (L + 1)) :=
  ⟨fun L h => ⟨GameV1_xpReq_zero L h, GameV2_xpReq_zero L h⟩,
   fun L h => ⟨GameV1_xpReq_strictMono L h, GameV2_xpReq_strictMono L h⟩⟩

/-- C4 witness at levels 0 and 7. -/
theorem c4_witness :
    (GameV1.getXPRequiredForLevel 0 = 0 ∧ GameV2.getXPRequiredForLevel 0 = 0) ∧
    (GameV1.getXPRequiredForLevel 7 < GameV1.getXPRequiredForLevel (7 + 1) ∧
      GameV2.getXPRequiredForLevel 7 < GameV2.getXPRequiredForLevel (7 + 1)) :=
  ⟨c4_xpRequired_zero_and_strictMono.1 0 (by norm_num),
   c4_xpRequired_zero_and_strictMono.2 7 (by norm_num)⟩

/-- Everything C3 asserts about one `calculateLevel` variant, derived
generically from the loop lemmas. -/
lemma calculateLevelWith_full (xpReq : ℤ → ℤ)
    (hone : xpReq 1 = 0)
    (hgrow : ∀ L : ℕ, 1 ≤ L → (L : ℤ) ≤ xpReq ((L : ℤ) + 1))
    (hs : ∀ L : ℤ, 1 ≤ L → xpReq L < xpReq (L + 1))
    (totalXP : ℤ) (h0 : 0 ≤ totalXP) :
    0 ≤ (calculateLevelWith xpReq totalXP).currentLevelXP ∧
    (calculateLevelWith xpReq totalXP).currentLevelXP
      < (calculateLevelWith xpReq totalXP).nextLevelXP ∧
    1 ≤ (calculateLevelWith xpReq totalXP).level ∧
    xpReq ((calculateLevelWith xpReq totalXP).level : ℤ) ≤ totalXP ∧
    totalXP < xpReq (((calculateLevelWith xpReq totalXP).level : ℤ) + 1) ∧
    (∀ M : ℕ, 1 ≤ M → xpReq (M : ℤ) ≤ totalXP → totalXP < xpReq ((M : ℤ) + 1) →
      M = (calculateLevelWith xpReq totalXP).level) := by
  obtain ⟨h1, h2, h3, h4, h5⟩ := calculateLevelWith_spec xpReq hone hgrow totalXP h0
  refine ⟨by rw [h4]; linarith, by rw [h4, h5]; linarith, h1, h2, h3, fun M hM hM1 hM2 => ?_⟩
  exact bracket_unique xpReq hs totalXP M _ hM h1 hM1 hM2 h2 h3

/-- C3: for every non-negative `totalXP`, both `calculateLevel` variants
return `0 ≤ currentLevelXP < nextLevelXP`, and the returned level is the
unique level ≥ 1 with
`getXPRequiredForLevel level ≤ totalXP < getXPRequiredForLevel (level+1)`. -/
theorem c3_calculateLevel_spec (totalXP : ℤ) (h0 : 0 ≤ totalXP) :
    (0 ≤ (GameV1.calculateLevel totalXP).currentLevelXP ∧
     (GameV1.calculateLevel totalXP).currentLevelXP
       < (GameV1.calculateLevel totalXP).nextLevelXP ∧
     1 ≤ (GameV1.calculateLevel totalXP).level ∧
     GameV1.getXPRequiredForLevel ((GameV1.calculateLevel totalXP).level : ℤ) ≤ totalXP ∧
     totalXP < GameV1.getXPRequiredForLevel (((GameV1.calculateLevel totalXP).level : ℤ) + 1) ∧
     (∀ M : ℕ, 1 ≤ M → GameV1.getXPRequiredForLevel (M : ℤ) ≤ totalXP →
        totalXP < GameV1.getXPRequiredForLevel ((M : ℤ) + 1) →
        M = (GameV1.calculateLevel totalXP).level)) ∧
    (0 ≤ (GameV2.calculateLevel totalXP).currentLevelXP ∧
     (GameV2.calculateLevel totalXP).currentLevelXP
       < (GameV2.calculateLevel totalXP).nextLevelXP ∧
     1 ≤ (GameV2.calculateLevel totalXP).level ∧
     GameV2.getXPRequiredForLevel ((GameV2.calculateLevel totalXP).level : ℤ) ≤ totalXP ∧
     totalXP < GameV2.getXPRequiredForLevel (((GameV2.calculateLevel totalXP).level : ℤ) + 1) ∧
     (∀ M : ℕ, 1 ≤ M → GameV2.getXPRequiredForLevel (M : ℤ) ≤ totalXP →
        totalXP < GameV2.getXPRequiredForLevel ((M : ℤ) + 1) →
        M = (GameV2.calculateLevel totalXP).level)) :=
  ⟨calculateLevelWith_full GameV1.getXPRequiredForLevel
      (GameV1_xpReq_zero 1 le_rfl) GameV1_xpReq_grow GameV1_xpReq_strictMono totalXP h0,
   calculateLevelWith_full GameV2.getXPRequiredForLevel
      (GameV2_xpReq_zero 1 le_rfl) GameV2_xpReq_grow GameV2_xpReq_strictMono totalXP h0⟩

/-- C3 witness at `totalXP = 600`. -/
theorem c3_witness :
    (0 : ℤ) ≤ 600 ∧
    0 ≤ (GameV1.calculateLevel 600).currentLevelXP ∧
    0 ≤ (GameV2.calculateLevel 600).currentLevelXP :=
  ⟨by norm_num, (c3_calculateLevel_spec 600 (by norm_num)).1.1,
    (c3_calculateLevel_spec 600 (by norm_num)).2.1⟩

/-- C2 counterexample: "Golf" is in no classification set, yet the
power-law variant's `calculateBaseXP` awards it the running per-km rate
(10 XP for 1 km) instead of the elevation bonus alone (here
`floor(25/10 · 1) = 2`). -/
theorem c2_counterexample :
    golfOuting.type ∉ RUNNING_TYPES ∧
    golfOuting.type ∉ CYCLING_TYPES ∧
    golfOuting.type ∉ GameV1.WALKING_TYPES ∧
    golfOuting.type ∉ GameV1.XC_SKI_TYPES ∧
    golfOuting.type ∉ GameV1.SKI_TYPES ∧
    golfOuting.type ∉ GameV1.SWIM_TYPES ∧
    golfOuting.type ∉ GameV1.WORKOUT_TYPES ∧
    golfOuting.type ∉ GameV1.YOGA_TYPES ∧
    GameV2.calculateBaseXP golfOuting = 12 ∧
    ⌊golfOuting.total_elevation_gain / 10 * GameV2.XP_PER_10M_ELEVATION⌋ = 2 := by
  refine ⟨by decide, by decide, by decide, by decide, by decide, by decide, by decide, by decide,
    ?_, ?_⟩
  · have h1 : golfOuting.type ∉ RUNNING_TYPES := by decide
    have h2 : golfOuting.type ∉ CYCLING_TYPES := by decide
    simp only [GameV2.calculateBaseXP, h1, h2, if_false]
    norm_num [golfOuting, GameV2.XP_PER_KM_RUN, GameV2.XP_PER_10M_ELEVATION]
  · norm_num [golfOuting, GameV2.XP_PER_10M_ELEVATION]

/-- C2 (amended): an activity whose type is in none of the
classification sets earns, in the full-classification (quadratic)
variant, zero distance- and time-based XP — its base XP is the floored
elevation bonus alone — while in the simpler (power-law) variant the
unknown type falls through to the *running* per-km rate, so distance XP
is awarded at 10 XP/km on top of the elevation bonus.  Neither variant
can throw: classification is by total list membership. -/
theorem c2_amended (a : StravaActivity)
    (h1 : a.type ∉ RUNNING_TYPES)
    (h2 : a.type ∉ GameV1.WALKING_TYPES)
    (h3 : a.type ∉ GameV1.XC_SKI_TYPES)
    (h4 : a.type ∉ GameV1.SKI_TYPES)
    (h5 : a.type ∉ CYCLING_TYPES)
    (h6 : a.type ∉ GameV1.SWIM_TYPES)
    (h7 : a.type ∉ GameV1.WORKOUT_TYPES)
    (h8 : a.type ∉ GameV1.YOGA_TYPES) :
    GameV1.calculateBaseXP a = ⌊a.total_elevation_gain * GameV1.XP_PER_M_ELEVATION⌋ ∧
    GameV2.calculateBaseXP a
      = ⌊a.distance / 1000 * GameV2.XP_PER_KM_RUN
          + a.total_elevation_gain / 10 * GameV2.XP_PER_10M_ELEVATION⌋ := by
  constructor
  · simp only [GameV1.calculateBaseXP, h1, h2, h3, h4, h5, h6, h7, h8, if_false]
    by_cases hd : a.distance > 0 <;> by_cases ht : a.moving_time > 0 <;>
      simp [hd, ht]
  · simp only [GameV2.calculateBaseXP, h1, h5, if_false]

/-- C2 witness: the amended claim at the golf outing (base XP 50 in the
quadratic variant — elevation only — and 12 in the power-law variant). -/
theorem c2_witness :
    GameV1.calculateBaseXP golfOuting
        = ⌊golfOuting.total_elevation_gain * GameV1.XP_PER_M_ELEVATION⌋ ∧
    GameV2.calculateBaseXP golfOuting
        = ⌊golfOuting.distance / 1000 * GameV2.XP_PER_KM_RUN
            + golfOuting.total_elevation_gain / 10 * GameV2.XP_PER_10M_ELEVATION⌋ :=
  c2_amended golfOuting (by decide) (by decide) (by decide) (by decide) (by decide)
    (by decide) (by decide) (by decide)

/-- The quest scan as a filter-and-map over the active quests: the
completions are the ids of the active, not-yet-completed, met quests in
catalog order, and the bonus is the sum of their rewards. -/
lemma checkDailyQuests_foldl (activity : StravaActivity) (completed : List String) :
    ∀ (l : List GameV2.DailyQuest) (acc : List String × ℤ),
      l.foldl (GameV2.questStep activity completed) acc
      = (acc.1 ++ ((l.filter
            (fun q => !completed.contains q.id && GameV2.questMet activity q)).map
              (fun q => q.id)),
         acc.2 + ((l.filter
            (fun q => !completed.contains q.id && GameV2.questMet activity q)).map
              (fun q => q.reward)).sum) := by
  intro l
  induction l with
  | nil => intro acc; simp
  | cons q t ih =>
    intro acc
    rw [List.foldl_cons, List.filter_cons]
    by_cases hc : completed.contains q.id
    · have hstep : GameV2.questStep activity completed acc q = acc := by
        unfold GameV2.questStep
        rw [if_pos hc]
      have hp : (!completed.contains q.id && GameV2.questMet activity q) = false := by
        rw [hc]
        rfl
      rw [hstep, ih, hp]
      simp
    · have hcb : completed.contains q.id = false := by
        simp only [Bool.not_eq_true] at hc
        exact hc
      by_cases hm : GameV2.questMet activity q
      · have hstep : GameV2.questStep activity completed acc q
            = (acc.1 ++ [q.id], acc.2 + q.reward) := by
          unfold GameV2.questStep
          rw [if_neg hc, if_pos hm]
        have hp : (!completed.contains q.id && GameV2.questMet activity q) = true := by
          rw [hcb, hm]
          rfl
        rw [hstep, ih, hp]
        simp [add_assoc]
      · have hmb : GameV2.questMet activity q = false := by
          simp only [Bool.not_eq_true] at hm
          exact hm
        have hstep : GameV2.questStep activity completed acc q = acc := by
          unfold GameV2.questStep
          rw [if_neg hc, if_neg hm]
        have hp : (!completed.contains q.id && GameV2.questMet activity q) = false := by
          rw [hcb, hmb]
          rfl
        rw [hstep, ih, hp]
        simp

/-- Closed form of `checkDailyQuests`. -/
lemma checkDailyQuests_eq (activity : StravaActivity) (d : JSDate)
    (completed : List String) :
    GameV2.checkDailyQuests activity d completed
      = (((GameV2.getActiveDailyQuests d).filter
            (fun q => !completed.contains q.id && GameV2.questMet activity q)).map
              (fun q => q.id),
         (((GameV2.getActiveDailyQuests d).filter
            (fun q => !completed.contains q.id && GameV2.questMet activity q)).map
              (fun q => q.reward)).sum) := by
  unfold GameV2.checkDailyQuests
  rw [checkDailyQuests_foldl]
  simp

/-- A quest id already completed today is never in the completions. -/
lemma checkDailyQuests_skip (activity : StravaActivity) (d : JSDate)
    (completed : List String) (q : String) (hq : q ∈ completed) :
    q ∉ (GameV2.checkDailyQuests activity d completed).1 := by
  rw [checkDailyQuests_eq]
  intro hmem
  simp only [List.mem_map, List.mem_filter, Bool.and_eq_true, Bool.not_eq_true'] at hmem
  obtain ⟨quest, ⟨_, hnc, _⟩, rfl⟩ := hmem
  simp at hnc
  exact hnc hq

/-- Membership in the completions, characterized against the catalog. -/
lemma mem_checkDailyQuests (activity : StravaActivity) (d : JSDate)
    (completed : List String) (id : String) :
    id ∈ (GameV2.checkDailyQuests activity d completed).1 ↔
      ∃ quest, quest ∈ GameV2.DAILY_QUESTS ∧ quest.id = id ∧
        d.weekday ∈ quest.activeDays ∧ id ∉ completed ∧
        GameV2.questMet activity quest = true := by
  rw [checkDailyQuests_eq]
  simp only [GameV2.getActiveDailyQuests, List.mem_map, List.mem_filter,
    Bool.and_eq_true, Bool.not_eq_true', decide_eq_true_eq]
  constructor
  · rintro ⟨quest, ⟨⟨hcat, hw⟩, hnc, hm⟩, rfl⟩
    refine ⟨quest, hcat, rfl, hw, ?_, hm⟩
    simp at hnc
    exact hnc
  · rintro ⟨quest, hcat, rfl, hw, hnc, hm⟩
    refine ⟨quest, ⟨⟨hcat, hw⟩, ?_, hm⟩, rfl⟩
    simp
    exact hnc

/-- A Sunday (weekday 0), when Weekend Warrior is active. -/
def daySun : JSDate := { ms := 4 * 86400000, day := 5, month := 0, year := 2025, weekday := 0 }

/-- A 10 km run dated `daySun`. -/
def run10kSun : StravaActivity :=
  { type := "Run", distance := 10000, moving_time := 3600
    total_elevation_gain := 0, start_date := daySun }

/-- C7: `checkDailyQuests` never re-awards a quest.  Ids already in
`completedQuestsToday` are skipped; a newly completed id corresponds to
a catalog quest active on the activity's weekday whose present
requirement fields are all met; the completions list has no duplicates
and the bonus is the sum of the rewards of exactly those quests; and a
second qualifying activity against the extended completed list earns
none of them again. -/
theorem c7_checkDailyQuests_no_double_reward
    (activity secondActivity : StravaActivity) (d : JSDate) (completed : List String) :
    (∀ q ∈ completed, q ∉ (GameV2.checkDailyQuests activity d completed).1) ∧
    (∀ id, id ∈ (GameV2.checkDailyQuests activity d completed).1 ↔
      ∃ quest, quest ∈ GameV2.DAILY_QUESTS ∧ quest.id = id ∧
        d.weekday ∈ quest.activeDays ∧ id ∉ completed ∧
        GameV2.questMet activity quest = true) ∧
    (GameV2.checkDailyQuests activity d completed).1.Nodup ∧
    (GameV2.checkDailyQuests activity d completed).2
      = (((GameV2.getActiveDailyQuests d).filter
          (fun q => !completed.contains q.id && GameV2.questMet activity q)).map
            (fun q => q.reward)).sum ∧
    (∀ q, q ∈ (GameV2.checkDailyQuests activity d completed).1 →
      q ∉ (GameV2.checkDailyQuests secondActivity d
            (completed ++ (GameV2.checkDailyQuests activity d completed).1)).1) := by
  refine ⟨fun q hq => checkDailyQuests_skip activity d completed q hq,
    fun id => mem_checkDailyQuests activity d completed id, ?_, ?_,
    fun q hq => checkDailyQuests_skip secondActivity d _ q (List.mem_append_right _ hq)⟩
  · rw [checkDailyQuests_eq]
    have hids : (GameV2.DAILY_QUESTS.map (fun q => q.id)).Nodup := by decide
    have hsub : ((GameV2.getActiveDailyQuests d).filter
        (fun q => !completed.contains q.id && GameV2.questMet activity q)).Sublist
          GameV2.DAILY_QUESTS :=
      (List.filter_sublist _).trans (List.filter_sublist _)
    exact (hsub.map (fun q => q.id)).nodup hids
  · rw [checkDailyQuests_eq]

/-- C7 witness: a 10 km Sunday run completes Weekend Warrior once; with
the id recorded as completed, an identical second run does not re-award
it. -/
theorem c7_witness :
    "WEEKEND_WARRIOR" ∈ (GameV2.checkDailyQuests run10kSun daySun []).1 ∧
    "WEEKEND_WARRIOR" ∉ (GameV2.checkDailyQuests run10kSun daySun ["WEEKEND_WARRIOR"]).1 := by
  constructor
  · apply ((c7_checkDailyQuests_no_double_reward run10kSun run10kSun daySun []).2.1
      "WEEKEND_WARRIOR").mpr
    refine ⟨{ id := "WEEKEND_WARRIOR", name := "Weekend Warrior"
              description := "Log a 10km+ activity"
              requirement_distance := some 10000, requirement_elevation := none
              reward := 100, activeDays := [0, 6] }, ?_, rfl, ?_, ?_, ?_⟩
    · simp [GameV2.DAILY_QUESTS]
    · simp [daySun]
    · simp
    · simp only [GameV2.questMet, run10kSun]
      norm_num
  · exact (c7_checkDailyQuests_no_double_reward run10kSun run10kSun daySun
      ["WEEKEND_WARRIOR"]).1 "WEEKEND_WARRIOR" (by simp)

/-- C5: when the activity is dated today and the (possibly just reset)
`dailyXPEarned` plus the pre-cap total exceeds the daily cap, the
awarded total is clamped to `max 0 (cap − dailyXPEarned)` with
`capped = true`, while the individual components are reported
unclamped — the cap applies to the sum only. -/
theorem c5_daily_cap (g : Option GameV2.GameProfile) (a : StravaActivity) (today : JSDate)
    (hsus : isSuspiciousSpeed a = false)
    (htoday : sameCalendarDay a.start_date today = true)
    (hover : GameV2.DAILY_XP_CAP <
      GameV2.effectiveDailyXP g today
        + (GameV2.calculateBaseXP a + GameV2.streakBonusOf g a
            + (GameV2.questPartsOf g a).2)) :
    (GameV2.calculateXP g a today).totalXP
        = max 0 (GameV2.DAILY_XP_CAP - GameV2.effectiveDailyXP g today) ∧
    (GameV2.calculateXP g a today).capped = true ∧
    (GameV2.calculateXP g a today).baseXP = GameV2.calculateBaseXP a ∧
    (GameV2.calculateXP g a today).streakBonus = GameV2.streakBonusOf g a ∧
    (GameV2.calculateXP g a today).questBonus = (GameV2.questPartsOf g a).2 := by
  simp only [GameV2.calculateXP, hsus, Bool.false_eq_true, if_false, htoday,
    Bool.true_and, decide_eq_true_eq]
  rw [if_pos hover]
  exact ⟨rfl, rfl, rfl, rfl, rfl⟩

/-- The stored profile of the C5 witness: 450 XP already earned today. -/
def capProfile : GameV2.GameProfile :=
  { totalXP := 0, level := 1, currentLevelXP := 0, nextLevelXP := 1414
    streakCount := 0, streakActive := false, lastActivityDate := some dayTue
    dailyXPEarned := 450, dailyXPResetDate := some dayTue, tier := .Novice
    completedQuestsToday := [], questResetDate := some dayTue }

/-- The active quests on `dayTue` are exactly the Hill Climber. -/
lemma active_dayTue :
    GameV2.getActiveDailyQuests dayTue
      = [{ id := "HILL_CLIMBER", name := "Hill Climber"
           description := "Gain 50m elevation"
           requirement_distance := none, requirement_elevation := some 50
           reward := 50, activeDays := [2, 4] }] := by
  simp [GameV2.getActiveDailyQuests, GameV2.DAILY_QUESTS, dayTue]

/-- The flat 10 km run completes no quest on `dayTue` (the Hill Climber
requires 50 m of elevation). -/
lemma questParts_capProfile :
    GameV2.questPartsOf (some capProfile) run10k = ([], 0) := by
  unfold GameV2.questPartsOf
  have hsd : run10k.start_date = dayTue := rfl
  rw [checkDailyQuests_eq, hsd, active_dayTue]
  have hnm : ¬ ((0 : ℚ) ≥ 50) := by norm_num
  simp [GameV2.questMet, run10k, hnm, capProfile]

/-- The run's base XP in the power-law variant: 10 km at 10 XP/km. -/
lemma baseXP_run10k : GameV2.calculateBaseXP run10k = 100 := by
  simp only [GameV2.calculateBaseXP, run10k, RUNNING_TYPES, GameV2.XP_PER_KM_RUN,
    GameV2.XP_PER_10M_ELEVATION]
  norm_num

/-- The daily figure the cap check uses for the C5 witness. -/
lemma effectiveDaily_capProfile :
    GameV2.effectiveDailyXP (some capProfile) dayTue = 450 := by
  simp [GameV2.effectiveDailyXP, capProfile, sameCalendarDay, dayTue]

/-- C5 witness: cap 500, 450 already earned, a 100 XP award — clamped to
exactly 50 with `capped = true` (the spec's worked example). -/
theorem c5_witness :
    (GameV2.calculateXP (some capProfile) run10k dayTue).totalXP = 50 ∧
    (GameV2.calculateXP (some capProfile) run10k dayTue).capped = true := by
  have hsus : isSuspiciousSpeed run10k = false := by
    simp only [isSuspiciousSpeed, run10k, RUNNING_TYPES, MAX_SPEED_KMH]
    norm_num
  have htoday : sameCalendarDay run10k.start_date dayTue = true := by decide
  have hstreak : GameV2.streakBonusOf (some capProfile) run10k = 0 := by
    simp [GameV2.streakBonusOf, capProfile]
  have hover : GameV2.DAILY_XP_CAP <
      GameV2.effectiveDailyXP (some capProfile) dayTue
        + (GameV2.calculateBaseXP run10k + GameV2.streakBonusOf (some capProfile) run10k
            + (GameV2.questPartsOf (some capProfile) run10k).2) := by
    rw [effectiveDaily_capProfile, baseXP_run10k, hstreak, questParts_capProfile]
    norm_num [GameV2.DAILY_XP_CAP]
  obtain ⟨h1, h2, _, _, _⟩ := c5_daily_cap (some capProfile) run10k dayTue hsus htoday hover
  refine ⟨?_, h2⟩
  rw [h1, effectiveDaily_capProfile]
  norm_num [GameV2.DAILY_XP_CAP]

/-- With one unit of fuel and a positive level-2 threshold, the scan on
`totalXP = 0` stops immediately at level 1. -/
lemma levelLoop_zero (xpReq : ℤ → ℤ) (hpos : (0 : ℤ) < xpReq (((1 : ℕ) : ℤ) + 1)) :
    levelLoop xpReq 0 1 1 0 = (1, 0) := by
  simp only [levelLoop, if_pos hpos]

/-- Evaluates `calculateLevel 0` in the quadratic variant: level 1, 0 XP into it,
`getXPRequiredForLevel 2` still to go. -/
lemma GameV1_calculateLevel_zero :
    GameV1.calculateLevel 0
      = { level := 1, currentLevelXP := 0
          nextLevelXP := GameV1.getXPRequiredForLevel 2 } := by
  have hpos : (0 : ℤ) < GameV1.getXPRequiredForLevel (((1 : ℕ) : ℤ) + 1) := by
    norm_num [GameV1.getXPRequiredForLevel, GameV1.LEVELING_A, GameV1.LEVELING_B]
  unfold GameV1.calculateLevel calculateLevelWith
  norm_num [levelLoop_zero _ hpos]

/-- Evaluates `calculateLevel 0` in the power-law variant. -/
lemma GameV2_calculateLevel_zero :
    GameV2.calculateLevel 0
      = { level := 1, currentLevelXP := 0
          nextLevelXP := GameV2.getXPRequiredForLevel 2 } := by
  have hpos : (0 : ℤ) < GameV2.getXPRequiredForLevel (((1 : ℕ) : ℤ) + 1) := by
    have h := GameV2_xpReq_strictMono 1 le_rfl
    rw [GameV2_xpReq_zero 1 le_rfl] at h
    norm_num
    exact_mod_cast h
  unfold GameV2.calculateLevel calculateLevelWith
  norm_num [levelLoop_zero _ hpos]

/-- C9: every snapshot the orchestrators produce — the updated profiles
of both variants and both initial profiles — carries exactly the level,
`currentLevelXP` and `nextLevelXP` that `calculateLevel` derives from
its own `totalXP`, and `currentLevelXP` plus the XP consumed by prior
levels (`getXPRequiredForLevel level`) equals `totalXP`. -/
theorem c9_snapshot_level_derived
    (g1 : Option GameV1.GameProfile) (a1 : StravaActivity) (r1 : GameV1.XPCalculationResult)
    (g2 : Option GameV2.GameProfile) (a2 : StravaActivity) (r2 : GameV2.XPCalculationResult)
    (today : JSDate) :
    ((GameV1.updateGameProfile g1 a1 r1).level
        = (GameV1.calculateLevel (GameV1.updateGameProfile g1 a1 r1).totalXP).level ∧
     (GameV1.updateGameProfile g1 a1 r1).currentLevelXP
        = (GameV1.calculateLevel (GameV1.updateGameProfile g1 a1 r1).totalXP).currentLevelXP ∧
     (GameV1.updateGameProfile g1 a1 r1).nextLevelXP
        = (GameV1.calculateLevel (GameV1.updateGameProfile g1 a1 r1).totalXP).nextLevelXP ∧
     (GameV1.updateGameProfile g1 a1 r1).currentLevelXP
        + GameV1.getXPRequiredForLevel ((GameV1.updateGameProfile g1 a1 r1).level : ℤ)
        = (GameV1.updateGameProfile g1 a1 r1).totalXP) ∧
    ((GameV2.updateGameProfile g2 a2 r2 today).level
        = (GameV2.calculateLevel (GameV2.updateGameProfile g2 a2 r2 today).totalXP).level ∧
     (GameV2.updateGameProfile g2 a2 r2 today).currentLevelXP
        = (GameV2.calculateLevel (GameV2.updateGameProfile g2 a2 r2 today).totalXP).currentLevelXP ∧
     (GameV2.updateGameProfile g2 a2 r2 today).nextLevelXP
        = (GameV2.calculateLevel (GameV2.updateGameProfile g2 a2 r2 today).totalXP).nextLevelXP ∧
     (GameV2.updateGameProfile g2 a2 r2 today).currentLevelXP
        + GameV2.getXPRequiredForLevel ((GameV2.updateGameProfile g2 a2 r2 today).level : ℤ)
        = (GameV2.updateGameProfile g2 a2 r2 today).totalXP) ∧
    (GameV1.initialGame.level
        = (GameV1.calculateLevel GameV1.initialGame.totalXP).level ∧
     GameV1.initialGame.currentLevelXP
        = (GameV1.calculateLevel GameV1.initialGame.totalXP).currentLevelXP ∧
     GameV1.initialGame.nextLevelXP
        = (GameV1.calculateLevel GameV1.initialGame.totalXP).nextLevelXP ∧
     GameV1.initialGame.currentLevelXP
        + GameV1.getXPRequiredForLevel ((GameV1.initialGame.level : ℕ) : ℤ)
        = GameV1.initialGame.totalXP) ∧
    (GameV2.initialGame.level
        = (GameV2.calculateLevel GameV2.initialGame.totalXP).level ∧
     GameV2.initialGame.currentLevelXP
        = (GameV2.calculateLevel GameV2.initialGame.totalXP).currentLevelXP ∧
     GameV2.initialGame.nextLevelXP
        = (GameV2.calculateLevel GameV2.initialGame.totalXP).nextLevelXP ∧
     GameV2.initialGame.currentLevelXP
        + GameV2.getXPRequiredForLevel ((GameV2.initialGame.level : ℕ) : ℤ)
        = GameV2.initialGame.totalXP) := by
  refine ⟨⟨rfl, rfl, rfl, ?_⟩, ⟨rfl, rfl, rfl, ?_⟩, ?_, ?_⟩
  · simpa [GameV1.updateGameProfile, GameV1.calculateLevel] using
      calculateLevelWith_consumed GameV1.getXPRequiredForLevel
        (GameV1_xpReq_zero 1 le_rfl)
        ((g1.map (fun g => g.totalXP)).getD 0 + r1.totalXP)
  · simpa [GameV2.updateGameProfile, GameV2.calculateLevel] using
      calculateLevelWith_consumed GameV2.getXPRequiredForLevel
        (GameV2_xpReq_zero 1 le_rfl)
        ((g2.map (fun g => g.totalXP)).getD 0 + r2.totalXP)
  · refine ⟨?_, ?_, ?_, ?_⟩ <;>
      simp [GameV1.initialGame, GameV1_calculateLevel_zero, GameV1_xpReq_zero 1 le_rfl]
  · refine ⟨?_, ?_, ?_, ?_⟩ <;>
      simp [GameV2.initialGame, GameV2_calculateLevel_zero, GameV2_xpReq_zero 1 le_rfl]

/-- The stored profile of the C1 counterexample: a 5-day streak, last
activity on `dayWed`. -/
def cexProfile : GameV2.GameProfile :=
  { totalXP := 1000, level := 1, currentLevelXP := 1000, nextLevelXP := 414
    streakCount := 5, streakActive := true, lastActivityDate := some dayWed
    dailyXPEarned := 0, dailyXPResetDate := some dayWed, tier := .Novice
    completedQuestsToday := [], questResetDate := some dayWed }

/-- C1 counterexample: the flagged activity gets the zero award, but the
pipeline still calls `updateGameProfile`, which rewrites the snapshot —
here the 5-day streak is reset (and `lastActivityDate` moved), so the
snapshot is NOT left unchanged. -/
theorem c1_counterexample :
    isSuspiciousSpeed fastRun = true ∧
    (GameV2.processActivity (some cexProfile) fastRun dayFri).1 = GameV2.zeroAward ∧
    (GameV2.processActivity (some cexProfile) fastRun dayFri).2 ≠ cexProfile := by
  have hflag : isSuspiciousSpeed fastRun = true := by
    simp only [isSuspiciousSpeed, fastRun]
    norm_num [RUNNING_TYPES, MAX_SPEED_KMH]
  have hd : daysDiff dayWed dayFri = 2 := by
    norm_num [daysDiff, dayWed, dayFri]
  refine ⟨hflag, ?_, ?_⟩
  · simp [GameV2.processActivity, GameV2.calculateXP, hflag]
  · intro h
    have hs : (GameV2.processActivity (some cexProfile) fastRun dayFri).2.streakCount = 1 := by
      simp only [GameV2.processActivity, GameV2.updateGameProfile, cexProfile, fastRun,
        Option.bind_some, Option.map_some, Option.getD_some]
      simp [updateStreak, hd]
    rw [h] at hs
    simp [cexProfile] at hs

/-- C1 (amended): for a flagged activity the orchestrator returns the
zero award (all components 0, no completions, not capped), adds no XP
and credits no quest — but it does NOT leave the snapshot unchanged:
`updateGameProfile` still runs, so the streak state is recomputed from
the flagged activity's date and `lastActivityTimestamp` is overwritten
with it (reset timestamps are refreshed likewise). -/
theorem c1_amended (g : GameV2.GameProfile) (a : StravaActivity) (today : JSDate)
    (hflag : isSuspiciousSpeed a = true) :
    GameV2.calculateXP (some g) a today = GameV2.zeroAward ∧
    (GameV2.updateGameProfile (some g) a
        (GameV2.calculateXP (some g) a today) today).totalXP = g.totalXP ∧
    (∀ q, q ∈ (GameV2.updateGameProfile (some g) a
          (GameV2.calculateXP (some g) a today) today).completedQuestsToday →
        q ∈ g.completedQuestsToday) ∧
    (GameV2.updateGameProfile (some g) a
        (GameV2.calculateXP (some g) a today) today).lastActivityDate
      = some a.start_date ∧
    (GameV2.updateGameProfile (some g) a
        (GameV2.calculateXP (some g) a today) today).streakCount
      = (updateStreak g.lastActivityDate g.streakCount a.start_date).streakCount := by
  have hz : GameV2.calculateXP (some g) a today = GameV2.zeroAward := by
    simp [GameV2.calculateXP, hflag]
  rw [hz]
  refine ⟨rfl, ?_, ?_, ?_, ?_⟩
  · simp [GameV2.updateGameProfile, GameV2.zeroAward]
  · intro q hq
    rcases hqr : g.questResetDate with _ | d
    · simp [GameV2.updateGameProfile, GameV2.zeroAward, hqr] at hq
    · by_cases hsd : sameCalendarDay d today
      · simp [GameV2.updateGameProfile, GameV2.zeroAward, hqr, hsd] at hq
        exact hq
      · simp [GameV2.updateGameProfile, GameV2.zeroAward, hqr, hsd] at hq
  · simp [GameV2.updateGameProfile]
  · simp [GameV2.updateGameProfile]

/-- C1 witness: the amended claim at the counterexample's inputs. -/
theorem c1_witness :
    isSuspiciousSpeed fastRun = true ∧
    GameV2.calculateXP (some cexProfile) fastRun dayFri = GameV2.zeroAward ∧
    (GameV2.updateGameProfile (some cexProfile) fastRun
        (GameV2.calculateXP (some cexProfile) fastRun dayFri) dayFri).totalXP
      = cexProfile.totalXP := by
  have hflag : isSuspiciousSpeed fastRun = true := by
    simp only [isSuspiciousSpeed, fastRun]
    norm_num [RUNNING_TYPES, MAX_SPEED_KMH]
  obtain ⟨h1, h2, _, _, _⟩ := c1_amended cexProfile fastRun dayFri hflag
  exact ⟨hflag, h1, h2⟩
